import Mathlib

/-!
Verification of the guest-execution / VM-exit handling subsystem of a minimal
RISC-V H-extension hypervisor.  Two deployments are embedded:

* `exercises/simple_hv/src/main.rs` — static-backing deployment: the exit
  dispatcher `vmexit_handler`, the second-stage translation-root setup
  `prepare_vm_pgtable`, and the context setup `prepare_guest_context`.
* `tour/h_2_0/src/main.rs` — demand-mapping deployment: the run-loop body that
  handles `AxVCpuExitReason` values, in particular the nested-page-fault
  demand mapping of the pflash device region.

Machine integers are modelled as `Nat` (with explicit `% 2 ^ 64` where the
source's `usize` arithmetic could differ); panics / `assert_eq!` / `todo!`
become `Except.error` carrying a diagnostic value that records exactly the
data interpolated into the source's panic message.
-/

/-! ## Register file (simple_hv)

Modelled from the spec: the general-purpose register file lives in
`exercises/simple_hv/src/regs.rs`, which is not under `src/`.  The spec
(§3) describes machine-word slots addressable by raw index and by symbolic
role; `A0` and `A1` are the two hypercall argument/return registers, `A6`
and `A7` carry the SBI function and extension identifiers. -/
abbrev Gprs : Type := Fin 32 → Nat

def A0 : Fin 32 := ⟨10, by decide⟩

def A1 : Fin 32 := ⟨11, by decide⟩

def A6 : Fin 32 := ⟨16, by decide⟩

def A7 : Fin 32 := ⟨17, by decide⟩

/-- Modelled from the spec: `GeneralPurposeRegisters::set_reg` writes one
register slot. -/
def Gprs.set_reg (g : Gprs) (i : Fin 32) (v : Nat) : Gprs :=
  Function.update g i v

/-- Modelled from the spec: the guest register context record
(`vcpu.rs::VmCpuRegisters`, not under `src/`).  Per spec §3 it holds the
general-purpose register file, the guest program counter `sepc`, the status
registers `sstatus` and `hstatus`, and the trap-diagnostic `htval`
(guest-physical trap value, already right-shifted by 2 by hardware).
The trap cause (`scause`) and trap value (`stval`) are read from hardware
CSRs by the dispatcher, so they are arguments of `vmexit_handler`, not
fields here. -/
structure VmCpuRegisters where
  gprs : Gprs
  sepc : Nat
  sstatus : Nat
  hstatus : Nat
  htval : Nat

/-- Trap causes distinguished by `vmexit_handler`'s `match scause.cause()`.
`other` covers every cause that falls into the `_` arm. -/
inductive Trap where
  | virtualSupervisorEnvCall
  | illegalInstruction
  | loadGuestPageFault
  | other (code : Nat)
deriving DecidableEq

/-- Modelled from the spec: the hypercall request decoded by
`sbi.rs::SbiMessage` (not under `src/`).  Per spec §3 it is a tagged variant
over supported extension/function pairs; only system-reset is modeled, and
decoding fails when the pair is unrecognized.  `base` stands for a
recognized-but-unimplemented request (spec §4.2), which the dispatcher
treats as fatal (`todo!()`). -/
inductive SbiMessage where
  | reset
  | base (fid : Nat)
deriving DecidableEq

/-- Modelled from the spec: the system-reset SBI extension identifier placed
in `a7` by the guest. -/
def EXT_SRST : Nat := 0x53525354

/-- Modelled from the spec: the base SBI extension identifier, a recognized
extension whose requests the dispatcher does not implement. -/
def EXT_BASE : Nat := 0x10

/-- Modelled from the spec: `SbiMessage::from_regs` decodes the argument
registers; system-reset is recognized by its extension/function pair, any
unrecognized pair is a decode failure. -/
def SbiMessage.from_regs (g : Gprs) : Option SbiMessage :=
  if g A7 = EXT_SRST ∧ g A6 = 0 then some SbiMessage.reset
  else if g A7 = EXT_BASE then some (SbiMessage.base (g A6))
  else none

/-- Fatal conditions raised by `vmexit_handler`: each constructor is one
`panic!` / failed `assert_eq!` / `todo!()` site of the source, carrying the
values the source interpolates into its message. -/
inductive Diag where
  | resetAssertA0 (a0 : Nat)
  | resetAssertA1 (a1 : Nat)
  | sbiTodo
  | badSbiMessage
  | unhandledIllegalInstruction (inst : Nat) (sepc : Nat)
  | unhandledPageFault (stval : Nat) (htval : Nat) (sepc : Nat)
  | unhandledTrap (cause : Trap) (sepc : Nat) (stval : Nat)
deriving DecidableEq

/-- `vmexit_handler` of `exercises/simple_hv/src/main.rs` (lines 79–153).
`scauseCause` and `stval` are the hardware CSR values read at lines 82 and
109/127/148.  `Except.ok (b, ctx)` is a normal return of `b` with mutated
context; `Except.error` is a panic. -/
def vmexit_handler (scauseCause : Trap) (stval : Nat) (ctx : VmCpuRegisters) :
    Except Diag (Bool × VmCpuRegisters) :=
  match scauseCause with
  | Trap.virtualSupervisorEnvCall =>
    match SbiMessage.from_regs ctx.gprs with
    | some SbiMessage.reset =>
      let a0 := ctx.gprs A0
      let a1 := ctx.gprs A1
      if a0 = 0x6688 then
        if a1 = 0x1234 then Except.ok (true, ctx)
        else Except.error (Diag.resetAssertA1 a1)
      else Except.error (Diag.resetAssertA0 a0)
    | some (SbiMessage.base _) => Except.error Diag.sbiTodo
    | none => Except.error Diag.badSbiMessage
  | Trap.illegalInstruction =>
    let inst := stval
    if inst = 0xf14025f3 then
      Except.ok (false,
        { ctx with gprs := ctx.gprs.set_reg A1 0x1234, sepc := ctx.sepc + 4 })
    else Except.error (Diag.unhandledIllegalInstruction inst ctx.sepc)
  | Trap.loadGuestPageFault =>
    let fault_addr := stval
    let htval_val := ctx.htval
    if fault_addr = 0x40 ∨ htval_val = 0x40 >>> 2 then
      Except.ok (false,
        { ctx with gprs := ctx.gprs.set_reg A0 0x6688, sepc := ctx.sepc + 4 })
    else Except.error (Diag.unhandledPageFault fault_addr htval_val ctx.sepc)
  | Trap.other code =>
    Except.error (Diag.unhandledTrap (Trap.other code) ctx.sepc stval)

/-! ## Guest-context and second-stage translation setup (simple_hv) -/

def VM_ENTRY : Nat := 0x80200000

/-- Modelled from the spec: bit position of `hstatus.SPV` (return-to-guest
bit); the bitfield definitions live in `csrs.rs`, not under `src/`. -/
def HSTATUS_SPV_BIT : Nat := 7

/-- Modelled from the spec: bit position of `hstatus.SPVP` (guest memory
accessible from host privilege). -/
def HSTATUS_SPVP_BIT : Nat := 8

/-- Modelled from the spec: bit position of `sstatus.SPP`. -/
def SSTATUS_SPP_BIT : Nat := 8

/-- `prepare_guest_context` of `simple_hv` (lines 155–173): reads the current
hardware `hstatus` and `sstatus` (arguments `hw_hstatus`, `hw_sstatus`),
sets `spv := Guest` and `spvp := Supervisor`, writes the result to the
hardware `hstatus` CSR and into the context, sets `sstatus.SPP :=
Supervisor` in the context, and points `sepc` at `VM_ENTRY`.  Returns the
mutated context together with the value written to the hardware `hstatus`
CSR. -/
def prepare_guest_context (hw_hstatus hw_sstatus : Nat) (ctx : VmCpuRegisters) :
    VmCpuRegisters × Nat :=
  let hstatus := hw_hstatus ||| (1 <<< HSTATUS_SPV_BIT) ||| (1 <<< HSTATUS_SPVP_BIT)
  let sstatus := hw_sstatus ||| (1 <<< SSTATUS_SPP_BIT)
  ({ ctx with hstatus := hstatus, sstatus := sstatus, sepc := VM_ENTRY }, hstatus)

/-- Hardware operations issued by `prepare_vm_pgtable`: the `csrw hgatp`
write and the `hfence.gvma` global nested-TLB invalidation. -/
inductive HwOp where
  | writeHgatp (v : Nat)
  | hfenceGvmaAll
deriving DecidableEq

/-- `prepare_vm_pgtable` of `simple_hv` (lines 59–68) as the sequence of
hardware operations it issues: computes
`hgatp = 8usize << 60 | usize::from(ept_root) >> 12`, writes it to the
`hgatp` CSR, then issues `hfence_gvma_all`.  `usize` arithmetic is modelled
with explicit reduction modulo `2 ^ 64`. -/
def prepare_vm_pgtable (ept_root : Nat) : List HwOp :=
  let hgatp := ((8 <<< 60) ||| (ept_root % 2 ^ 64) >>> 12) % 2 ^ 64
  [HwOp.writeHgatp hgatp, HwOp.hfenceGvmaAll]

/-- State of the two hardware facilities touched by `prepare_vm_pgtable`:
the `hgatp` CSR and a count of global nested-TLB invalidations issued. -/
structure Hw where
  hgatp : Nat
  gvmaFences : Nat

/-- Effect of one hardware operation on the hardware state. -/
def applyOp (hw : Hw) (op : HwOp) : Hw :=
  match op with
  | HwOp.writeHgatp v => { hw with hgatp := v }
  | HwOp.hfenceGvmaAll => { hw with gvmaFences := hw.gvmaFences + 1 }

/-- Run a sequence of hardware operations in order. -/
def runOps (hw : Hw) (ops : List HwOp) : Hw :=
  ops.foldl applyOp hw

/-! ## Demand-mapping deployment (tour/h_2_0) -/

/-- Modelled from the spec: the address-space collaborator (spec §6).
`mappings` records each `map-and-allocate` call (base, length, flags),
newest first; `writes` records each `write` call (base, bytes), newest
first; `mem` is the byte content of guest-physical memory, with freshly
allocated (populate-now) pages zero-filled. -/
structure AddrSpace where
  mappings : List (Nat × Nat × Nat)
  writes : List (Nat × List Nat)
  mem : Nat → Nat

/-- Modelled from the spec: `map-and-allocate(addr, size, flags,
populate-now)` — records the mapping and zero-fills the region. -/
def AddrSpace.map_alloc (a : AddrSpace) (addr size fl : Nat) : AddrSpace :=
  { a with
    mappings := (addr, size, fl) :: a.mappings
    mem := fun x => if addr ≤ x ∧ x < addr + size then 0 else a.mem x }

/-- Modelled from the spec: `write(addr, bytes)` — copies `bytes` into the
address space starting at `addr`. -/
def AddrSpace.write (a : AddrSpace) (addr : Nat) (bytes : List Nat) : AddrSpace :=
  { a with
    writes := (addr, bytes) :: a.writes
    mem := fun x =>
      if addr ≤ x ∧ x < addr + bytes.length then bytes.getD (x - addr) 0
      else a.mem x }

/-- Exit reasons returned by the external vCPU collaborator (`riscv_vcpu`):
the run loop of `tour/h_2_0/src/main.rs` matches `Nothing`,
`NestedPageFault` and a catch-all `_`; `other` stands for any reason in the
catch-all. -/
inductive AxVCpuExitReason where
  | nothing
  | nestedPageFault (addr : Nat) (access_flags : Nat)
  | other (tag : Nat)
deriving DecidableEq

/-- Outcome of the handler's interaction with `/sbin/pflash.img`
(`File::open`, `seek`, `read` at lines 71–88): open failure, seek failure,
read failure, or a successful read returning `data` (at most 4096 bytes). -/
inductive PflashRead where
  | openErr
  | seekErr
  | readErr
  | bytes (data : List Nat)
deriving DecidableEq

/-- Fatal conditions of the h_2_0 run-loop body: the failed
`assert_eq!(addr, 0x2200_0000, ...)` and the `panic!("Unhandled VM-Exit:
{:?}", exit_reason)`, each carrying exactly the data its message
interpolates. -/
inductive H2Diag where
  | assertNotPflash (addr : Nat)
  | unhandledVmExit (reason : AxVCpuExitReason)
deriving DecidableEq

/-- State the h_2_0 run-loop body can observe or mutate: the guest address
space, plus the guest program counter held inside the external vCPU (which
the loop body never touches — recorded here so frame effects on it are
statable). -/
structure H2State where
  aspace : AddrSpace
  sepc : Nat

/-- The pflash#2 device-region base address `0x2200_0000`. -/
def PFLASH_ADDR : Nat := 0x22000000

/-- The fallback placeholder payload `"pfld"` as bytes. -/
def pfldBytes : List Nat := [0x70, 0x66, 0x6c, 0x64]

/-- The `Ok(exit_reason)` dispatch of the run loop of
`tour/h_2_0/src/main.rs` (lines 56–107): `Nothing` does nothing; a nested
page fault is asserted to be at `PFLASH_ADDR`, then a page is mapped with
flags `0xf` and filled from the pflash backing file (placeholder `"pfld"`
when the file cannot be opened or seeking fails; the bytes actually read
when the read succeeds, `read_len` possibly 0; nothing written when the
read errors); any other exit reason panics. -/
def handle_exit (reason : AxVCpuExitReason) (pf : PflashRead) (s : H2State) :
    Except H2Diag H2State :=
  match reason with
  | AxVCpuExitReason.nothing => Except.ok s
  | AxVCpuExitReason.nestedPageFault addr _ =>
    if addr = PFLASH_ADDR then
      match pf with
      | PflashRead.openErr =>
        Except.ok { s with
          aspace := (s.aspace.map_alloc addr 4096 0xf).write addr pfldBytes }
      | PflashRead.seekErr =>
        Except.ok { s with
          aspace := (s.aspace.map_alloc addr 4096 0xf).write addr pfldBytes }
      | PflashRead.readErr =>
        Except.ok { s with aspace := s.aspace.map_alloc addr 4096 0xf }
      | PflashRead.bytes data =>
        Except.ok { s with
          aspace :=
            if 0 < data.length then
              (s.aspace.map_alloc addr 4096 0xf).write addr data
            else s.aspace.map_alloc addr 4096 0xf }
    else Except.error (H2Diag.assertNotPflash addr)
  | r => Except.error (H2Diag.unhandledVmExit r)

/-! ## Theorems -/

/-- C7: for every second-stage root physical address, the value
`prepare_vm_pgtable` writes to `hgatp` equals the mode selector 8 shifted
left by 60 bits, bitwise-or'd with the physical frame number (the root
address shifted right by 12 bits), and the write is immediately followed by
the global nested-TLB invalidation. -/
theorem hgatp_encoding (root : Nat) (h : root < 2 ^ 64) :
    prepare_vm_pgtable root =
      [HwOp.writeHgatp ((8 <<< 60) ||| root >>> 12), HwOp.hfenceGvmaAll] := by
  have hshl : 8 <<< 60 < 2 ^ 64 := by decide
  have hshr : root >>> 12 < 2 ^ 64 := by
    calc root >>> 12 ≤ root := by
          rw [Nat.shiftRight_eq_div_pow]; exact Nat.div_le_self _ _
      _ < 2 ^ 64 := h
  unfold prepare_vm_pgtable
  rw [Nat.mod_eq_of_lt h, Nat.mod_eq_of_lt (Nat.or_lt_two_pow hshl hshr)]

/-- Witness for C7 at the concrete root address `0x80000000`. -/
theorem hgatp_encoding_witness :
    prepare_vm_pgtable 0x80000000 =
      [HwOp.writeHgatp ((8 <<< 60) ||| 0x80000000 >>> 12), HwOp.hfenceGvmaAll] :=
  hgatp_encoding 0x80000000 (by decide)

/-- C9: running the operations of `prepare_vm_pgtable` (the `hgatp` write
followed by the global invalidation) and then reading the hardware `hgatp`
register yields exactly the value just written, from any starting hardware
state; the invalidation itself never alters `hgatp`. -/
theorem hgatp_readback (hw : Hw) (root v : Nat)
    (h : prepare_vm_pgtable root = [HwOp.writeHgatp v, HwOp.hfenceGvmaAll]) :
    (runOps hw (prepare_vm_pgtable root)).hgatp = v ∧
    ∀ hw2 : Hw, (applyOp hw2 HwOp.hfenceGvmaAll).hgatp = hw2.hgatp := by
  constructor
  · rw [h]; rfl
  · intro hw2; rfl

/-- Witness for C9 at root address 0 from hardware state `⟨0, 0⟩`. -/
theorem hgatp_readback_witness :
    (runOps ⟨0, 0⟩ (prepare_vm_pgtable 0)).hgatp = 8 <<< 60 ∧
    ∀ hw2 : Hw, (applyOp hw2 HwOp.hfenceGvmaAll).hgatp = hw2.hgatp :=
  hgatp_readback ⟨0, 0⟩ 0 (8 <<< 60) (by decide)

/-- C1: on a `VirtualSupervisorEnvCall` exit that decodes to a system-reset
hypercall, `vmexit_handler` returns `true` (guest terminated, context
untouched) exactly when `a0 = 0x6688` and `a1 = 0x1234`; a wrong `a0` and a
wrong `a1` each terminate with their own distinguishable fatal diagnostic
(the two failed assertions), and an undecodable SBI message terminates with
the `bad sbi message` diagnostic. -/
theorem reset_hypercall_handshake (ctx : VmCpuRegisters) (stv : Nat) :
    (SbiMessage.from_regs ctx.gprs = some SbiMessage.reset →
      (ctx.gprs A0 = 0x6688 → ctx.gprs A1 = 0x1234 →
        vmexit_handler Trap.virtualSupervisorEnvCall stv ctx =
          Except.ok (true, ctx)) ∧
      (ctx.gprs A0 ≠ 0x6688 →
        vmexit_handler Trap.virtualSupervisorEnvCall stv ctx =
          Except.error (Diag.resetAssertA0 (ctx.gprs A0))) ∧
      (ctx.gprs A0 = 0x6688 → ctx.gprs A1 ≠ 0x1234 →
        vmexit_handler Trap.virtualSupervisorEnvCall stv ctx =
          Except.error (Diag.resetAssertA1 (ctx.gprs A1)))) ∧
    (SbiMessage.from_regs ctx.gprs = none →
      vmexit_handler Trap.virtualSupervisorEnvCall stv ctx =
        Except.error Diag.badSbiMessage) := by
  constructor
  · intro hdec
    refine ⟨fun h0 h1 => ?_, fun h0 => ?_, fun h0 h1 => ?_⟩
    · simp only [vmexit_handler]; rw [hdec]; simp [h0, h1]
    · simp only [vmexit_handler]; rw [hdec]; simp [h0]
    · simp only [vmexit_handler]; rw [hdec]; simp [h0, h1]
  · intro hdec
    simp only [vmexit_handler]; rw [hdec]

/-- Concrete guest context for the C1 witness: argument registers hold the
system-reset extension/function pair and the handshake values. -/
def c1Ctx : VmCpuRegisters :=
  ⟨fun i => if i = A7 then EXT_SRST else if i = A0 then 0x6688
            else if i = A1 then 0x1234 else 0, 0, 0, 0, 0⟩

/-- Witness for C1: with the handshake values in place the handler returns
`true` with the context untouched. -/
theorem reset_hypercall_handshake_witness :
    vmexit_handler Trap.virtualSupervisorEnvCall 0 c1Ctx =
      Except.ok (true, c1Ctx) :=
  ((reset_hypercall_handshake c1Ctx 0).1 (by decide)).1 (by decide) (by decide)

/-- C2: an illegal-instruction exit whose trap value is the allow-listed
word `0xf14025f3` (`csrr a1, mhartid`) writes `0x1234` into `a1` — which is
exactly the register named by the instruction's `rd` field, bits 7–11 —
advances `sepc` by exactly 4, and returns `false`; any other instruction
word is fatal with a diagnostic carrying the word and `sepc`. -/
theorem illegal_instruction_emulation (ctx : VmCpuRegisters) (inst : Nat) :
    (inst = 0xf14025f3 →
      vmexit_handler Trap.illegalInstruction inst ctx =
        Except.ok (false,
          { ctx with gprs := ctx.gprs.set_reg A1 0x1234,
                     sepc := ctx.sepc + 4 }) ∧
      (ctx.gprs.set_reg A1 0x1234) A1 = 0x1234 ∧
      (0xf14025f3 >>> 7) % 32 = A1.val) ∧
    (inst ≠ 0xf14025f3 →
      vmexit_handler Trap.illegalInstruction inst ctx =
        Except.error (Diag.unhandledIllegalInstruction inst ctx.sepc)) := by
  constructor
  · intro h; subst h
    refine ⟨rfl, ?_, by decide⟩
    exact Function.update_same _ _ _
  · intro h
    simp only [vmexit_handler]
    rw [if_neg h]

/-- Concrete guest context for the C2 witness. -/
def c2Ctx : VmCpuRegisters := ⟨fun _ => 0, 0x80200000, 0, 0, 0⟩

/-- Witness for C2 at the allow-listed instruction word. -/
theorem illegal_instruction_emulation_witness :
    vmexit_handler Trap.illegalInstruction 0xf14025f3 c2Ctx =
      Except.ok (false,
        { c2Ctx with gprs := c2Ctx.gprs.set_reg A1 0x1234,
                     sepc := c2Ctx.sepc + 4 }) ∧
    (c2Ctx.gprs.set_reg A1 0x1234) A1 = 0x1234 ∧
    (0xf14025f3 >>> 7) % 32 = A1.val :=
  (illegal_instruction_emulation c2Ctx 0xf14025f3).1 rfl

/-- C3: a load-guest-page-fault exit at the allow-listed address 0x40
(`stval = 0x40`, or `htval = 0x40 >> 2`) writes `0x6688` into `a0`,
advances `sepc` by exactly 4, and returns `false`; a fault at any other
address is fatal with a diagnostic carrying `stval`, `htval` and `sepc`. -/
theorem load_fault_emulation (ctx : VmCpuRegisters) (stv : Nat) :
    ((stv = 0x40 ∨ ctx.htval = 0x40 >>> 2) →
      vmexit_handler Trap.loadGuestPageFault stv ctx =
        Except.ok (false,
          { ctx with gprs := ctx.gprs.set_reg A0 0x6688,
                     sepc := ctx.sepc + 4 }) ∧
      (ctx.gprs.set_reg A0 0x6688) A0 = 0x6688) ∧
    (¬(stv = 0x40 ∨ ctx.htval = 0x40 >>> 2) →
      vmexit_handler Trap.loadGuestPageFault stv ctx =
        Except.error (Diag.unhandledPageFault stv ctx.htval ctx.sepc)) := by
  constructor
  · intro h
    constructor
    · simp only [vmexit_handler]
      rw [if_pos h]
    · exact Function.update_same _ _ _
  · intro h
    simp only [vmexit_handler]
    rw [if_neg h]

/-- Concrete guest context for the C3 witness. -/
def c3Ctx : VmCpuRegisters := ⟨fun _ => 0, 0x80200000, 0, 0, 0x10⟩

/-- Witness for C3 at `stval = 0x40`. -/
theorem load_fault_emulation_witness :
    vmexit_handler Trap.loadGuestPageFault 0x40 c3Ctx =
      Except.ok (false,
        { c3Ctx with gprs := c3Ctx.gprs.set_reg A0 0x6688,
                     sepc := c3Ctx.sepc + 4 }) ∧
    (c3Ctx.gprs.set_reg A0 0x6688) A0 = 0x6688 :=
  (load_fault_emulation c3Ctx 0x40).1 (Or.inl rfl)

/-- C10: on every recoverable exit `vmexit_handler` mutates only what the
emulation requires: the recognized illegal-instruction case changes only
GPR `a1` and `sepc`, the recognized load-fault case changes only GPR `a0`
and `sepc`; every other general-purpose register and the `sstatus`,
`hstatus` and `htval` fields of the context are unchanged. -/
theorem recoverable_exit_frame (ctx : VmCpuRegisters) (inst stv : Nat) :
    (inst = 0xf14025f3 →
      ∀ r : VmCpuRegisters,
        vmexit_handler Trap.illegalInstruction inst ctx =
          Except.ok (false, r) →
        (∀ i : Fin 32, i ≠ A1 → r.gprs i = ctx.gprs i) ∧
        r.gprs A1 = 0x1234 ∧ r.sepc = ctx.sepc + 4 ∧
        r.sstatus = ctx.sstatus ∧ r.hstatus = ctx.hstatus ∧
        r.htval = ctx.htval) ∧
    ((stv = 0x40 ∨ ctx.htval = 0x40 >>> 2) →
      ∀ r : VmCpuRegisters,
        vmexit_handler Trap.loadGuestPageFault stv ctx =
          Except.ok (false, r) →
        (∀ i : Fin 32, i ≠ A0 → r.gprs i = ctx.gprs i) ∧
        r.gprs A0 = 0x6688 ∧ r.sepc = ctx.sepc + 4 ∧
        r.sstatus = ctx.sstatus ∧ r.hstatus = ctx.hstatus ∧
        r.htval = ctx.htval) := by
  constructor
  · intro h r hr
    subst h
    have hv : vmexit_handler Trap.illegalInstruction 0xf14025f3 ctx =
        Except.ok (false,
          { ctx with gprs := ctx.gprs.set_reg A1 0x1234,
                     sepc := ctx.sepc + 4 }) := rfl
    rw [hv] at hr
    injection hr with h1
    injection h1 with hb hx
    subst hx
    refine ⟨fun i hi => ?_, ?_, rfl, rfl, rfl, rfl⟩
    · show Function.update ctx.gprs A1 0x1234 i = ctx.gprs i
      exact Function.update_noteq hi _ _
    · show Function.update ctx.gprs A1 0x1234 A1 = 0x1234
      exact Function.update_same _ _ _
  · intro h r hr
    have hv : vmexit_handler Trap.loadGuestPageFault stv ctx =
        Except.ok (false,
          { ctx with gprs := ctx.gprs.set_reg A0 0x6688,
                     sepc := ctx.sepc + 4 }) := by
      simp only [vmexit_handler]
      rw [if_pos h]
    rw [hv] at hr
    injection hr with h1
    injection h1 with hb hx
    subst hx
    refine ⟨fun i hi => ?_, ?_, rfl, rfl, rfl, rfl⟩
    · show Function.update ctx.gprs A0 0x6688 i = ctx.gprs i
      exact Function.update_noteq hi _ _
    · show Function.update ctx.gprs A0 0x6688 A0 = 0x6688
      exact Function.update_same _ _ _

/-- Concrete guest context for the C10 witness. -/
def c10Ctx : VmCpuRegisters := ⟨fun _ => 7, 0x100, 0x20, 0x180, 0⟩

/-- Result context of the recognized illegal-instruction dispatch on
`c10Ctx`, for the C10 witness. -/
def c10Out : VmCpuRegisters :=
  { c10Ctx with gprs := c10Ctx.gprs.set_reg A1 0x1234,
                sepc := c10Ctx.sepc + 4 }

/-- Witness for C10 on the illegal-instruction case. -/
theorem recoverable_exit_frame_witness :
    (∀ i : Fin 32, i ≠ A1 → c10Out.gprs i = c10Ctx.gprs i) ∧
    c10Out.gprs A1 = 0x1234 ∧ c10Out.sepc = c10Ctx.sepc + 4 ∧
    c10Out.sstatus = c10Ctx.sstatus ∧ c10Out.hstatus = c10Ctx.hstatus ∧
    c10Out.htval = c10Ctx.htval :=
  (recoverable_exit_frame c10Ctx 0xf14025f3 0).1 rfl c10Out rfl

/-- C8: `prepare_guest_context` sets the `spv` and `spvp` bits in the
context's `hstatus` and writes that very value to the hardware `hstatus`
register, and every `vmexit_handler` step that lets guest execution
continue (a normal return) leaves the `hstatus` field of the context
exactly as it was: no dispatch or emulation path rewrites it. -/
theorem hstatus_bits_invariant (hwh hws : Nat) (ctx0 ctx ctx' : VmCpuRegisters)
    (tr : Trap) (stv : Nat) (b : Bool)
    (hstep : vmexit_handler tr stv ctx = Except.ok (b, ctx')) :
    ((prepare_guest_context hwh hws ctx0).1.hstatus.testBit HSTATUS_SPV_BIT = true ∧
     (prepare_guest_context hwh hws ctx0).1.hstatus.testBit HSTATUS_SPVP_BIT = true ∧
     (prepare_guest_context hwh hws ctx0).2 =
       (prepare_guest_context hwh hws ctx0).1.hstatus) ∧
    ctx'.hstatus = ctx.hstatus := by
  refine ⟨⟨?_, ?_, rfl⟩, ?_⟩
  · have h1 : Nat.testBit (1 <<< HSTATUS_SPV_BIT) HSTATUS_SPV_BIT = true := by decide
    simp [prepare_guest_context, Nat.testBit_or, h1]
  · have h1 : Nat.testBit (1 <<< HSTATUS_SPVP_BIT) HSTATUS_SPVP_BIT = true := by decide
    simp [prepare_guest_context, Nat.testBit_or, h1]
  · cases tr with
    | virtualSupervisorEnvCall =>
      simp only [vmexit_handler] at hstep
      cases hdec : SbiMessage.from_regs ctx.gprs with
      | none => rw [hdec] at hstep; simp at hstep
      | some msg =>
        rw [hdec] at hstep
        cases msg with
        | reset =>
          by_cases h0 : ctx.gprs A0 = 0x6688
          · by_cases h1 : ctx.gprs A1 = 0x1234
            · simp only [h0, h1, if_pos] at hstep
              injection hstep with h2
              injection h2 with hb hx
              rw [← hx]
            · rw [if_pos h0, if_neg h1] at hstep; simp at hstep
          · rw [if_neg h0] at hstep; simp at hstep
        | base fid => simp at hstep
    | illegalInstruction =>
      simp only [vmexit_handler] at hstep
      by_cases h : stv = 0xf14025f3
      · rw [if_pos h] at hstep
        injection hstep with h2
        injection h2 with hb hx
        rw [← hx]
      · rw [if_neg h] at hstep; simp at hstep
    | loadGuestPageFault =>
      simp only [vmexit_handler] at hstep
      by_cases h : stv = 0x40 ∨ ctx.htval = 0x40 >>> 2
      · rw [if_pos h] at hstep
        injection hstep with h2
        injection h2 with hb hx
        rw [← hx]
      · rw [if_neg h] at hstep; simp at hstep
    | other code => simp [vmexit_handler] at hstep

/-- Concrete guest context for the C8 witness. -/
def c8Ctx : VmCpuRegisters := ⟨fun _ => 0, 0x80200000, 0x120, 0x180, 0⟩

/-- Result context of the recognized illegal-instruction dispatch on
`c8Ctx`, for the C8 witness. -/
def c8Out : VmCpuRegisters :=
  { c8Ctx with gprs := c8Ctx.gprs.set_reg A1 0x1234,
               sepc := c8Ctx.sepc + 4 }

/-- Witness for C8 on a concrete recoverable dispatch. -/
theorem hstatus_bits_invariant_witness :
    ((prepare_guest_context 0 0 c8Ctx).1.hstatus.testBit HSTATUS_SPV_BIT = true ∧
     (prepare_guest_context 0 0 c8Ctx).1.hstatus.testBit HSTATUS_SPVP_BIT = true ∧
     (prepare_guest_context 0 0 c8Ctx).2 =
       (prepare_guest_context 0 0 c8Ctx).1.hstatus) ∧
    c8Out.hstatus = c8Ctx.hstatus :=
  hstatus_bits_invariant 0 0 c8Ctx c8Ctx c8Out Trap.illegalInstruction
    0xf14025f3 false rfl

/-- C4: a nested-page-fault exit at the recognized device-region address
`0x2200_0000` makes the handler map a 4096-byte page there with flags
`0xf` (whose read, write and execute bits are set), leaving the guest
program counter held in the vCPU unchanged, whatever the pflash backing
file does; a nested page fault at any other address is fatal with the
failed-assertion diagnostic. -/
theorem nested_fault_maps_page (s : H2State) (pf : PflashRead) (af : Nat) :
    (∃ a' : AddrSpace,
      handle_exit (AxVCpuExitReason.nestedPageFault PFLASH_ADDR af) pf s =
        Except.ok { aspace := a', sepc := s.sepc } ∧
      a'.mappings.head? = some (PFLASH_ADDR, 4096, 0xf) ∧
      Nat.testBit 0xf 0 = true ∧ Nat.testBit 0xf 1 = true ∧
      Nat.testBit 0xf 2 = true) ∧
    (∀ addr, addr ≠ PFLASH_ADDR →
      handle_exit (AxVCpuExitReason.nestedPageFault addr af) pf s =
        Except.error (H2Diag.assertNotPflash addr)) := by
  constructor
  · cases pf with
    | openErr => exact ⟨_, rfl, rfl, by decide, by decide, by decide⟩
    | seekErr => exact ⟨_, rfl, rfl, by decide, by decide, by decide⟩
    | readErr => exact ⟨_, rfl, rfl, by decide, by decide, by decide⟩
    | bytes data =>
      refine ⟨_, rfl, ?_, by decide, by decide, by decide⟩
      by_cases hd : 0 < data.length
      · rw [if_pos hd]; rfl
      · rw [if_neg hd]; rfl
  · intro addr haddr
    simp only [handle_exit]
    rw [if_neg haddr]

/-- Concrete run-loop state for the C4 witness. -/
def c4State : H2State := ⟨⟨[], [], fun _ => 0⟩, 0x80200000⟩

/-- Witness for C4: a nested page fault at an unrecognized address is
fatal. -/
theorem nested_fault_maps_page_witness :
    handle_exit (AxVCpuExitReason.nestedPageFault 0x1000 0)
        PflashRead.openErr c4State =
      Except.error (H2Diag.assertNotPflash 0x1000) :=
  (nested_fault_maps_page c4State PflashRead.openErr 0).2 0x1000 (by decide)

/-- Page-content byte of a run-loop-body outcome, for stating what the
mapped page holds after a successful dispatch. -/
def resultMemByte (r : Except H2Diag H2State) (x : Nat) : Option Nat :=
  match r with
  | Except.ok s => some (s.aspace.mem x)
  | Except.error _ => none

/-- The `write` calls recorded by a run-loop-body outcome. -/
def resultWrites (r : Except H2Diag H2State) : Option (List (Nat × List Nat)) :=
  match r with
  | Except.ok s => some s.aspace.writes
  | Except.error _ => none

/-- Counterexample to C5 as stated: when the `read` of `/sbin/pflash.img`
errors, the handler performs no `write` at all (`read_len = 0`), so the
page holds the allocator's zero fill, not the placeholder `"pfld"` — its
first byte is 0, not `0x70` (`'p'`). -/
theorem pflash_placeholder_counterexample :
    resultMemByte (handle_exit (AxVCpuExitReason.nestedPageFault 0x22000000 0xf)
      PflashRead.readErr ⟨⟨[], [], fun _ => 0⟩, 0⟩) 0x22000000 = some 0 ∧
    resultWrites (handle_exit (AxVCpuExitReason.nestedPageFault 0x22000000 0xf)
      PflashRead.readErr ⟨⟨[], [], fun _ => 0⟩, 0⟩) = some [] ∧
    pfldBytes.getD 0 0 = 0x70 ∧ (0 : Nat) ≠ 0x70 :=
  ⟨rfl, rfl, rfl, by decide⟩

/-- C5 as amended: after a nested-page-fault dispatch at the recognized
address, the mapped page's content equals the bytes actually read from
`/sbin/pflash.img` (zero-padded to the page size); the `"pfld"` placeholder
is used only when the file cannot be opened or seeking fails; when the read
itself errors — and likewise when it returns zero bytes — nothing is
written and the page keeps its zero fill. -/
theorem pflash_page_content (s : H2State) (pf : PflashRead) (af : Nat)
    (s' : H2State)
    (h : handle_exit (AxVCpuExitReason.nestedPageFault PFLASH_ADDR af) pf s =
      Except.ok s') :
    (pf = PflashRead.openErr ∨ pf = PflashRead.seekErr →
      ∀ i, i < 4 → s'.aspace.mem (PFLASH_ADDR + i) = pfldBytes.getD i 0) ∧
    (pf = PflashRead.readErr →
      s'.aspace.writes = s.aspace.writes ∧
      ∀ i, i < 4096 → s'.aspace.mem (PFLASH_ADDR + i) = 0) ∧
    (∀ data, pf = PflashRead.bytes data →
      (∀ i, i < data.length → i < 4096 →
        s'.aspace.mem (PFLASH_ADDR + i) = data.getD i 0) ∧
      (∀ i, data.length ≤ i → i < 4096 →
        s'.aspace.mem (PFLASH_ADDR + i) = 0)) := by
  cases pf with
  | openErr =>
    injection h with hs
    subst hs
    refine ⟨fun _ i hi => ?_, fun hx => ?_, fun data hx => ?_⟩
    · have hlen : pfldBytes.length = 4 := rfl
      simp only [AddrSpace.write, AddrSpace.map_alloc, hlen]
      rw [if_pos ⟨Nat.le_add_right _ _, by omega⟩, Nat.add_sub_cancel_left]
    · exact absurd hx (by simp)
    · exact absurd hx (by simp)
  | seekErr =>
    injection h with hs
    subst hs
    refine ⟨fun _ i hi => ?_, fun hx => ?_, fun data hx => ?_⟩
    · have hlen : pfldBytes.length = 4 := rfl
      simp only [AddrSpace.write, AddrSpace.map_alloc, hlen]
      rw [if_pos ⟨Nat.le_add_right _ _, by omega⟩, Nat.add_sub_cancel_left]
    · exact absurd hx (by simp)
    · exact absurd hx (by simp)
  | readErr =>
    injection h with hs
    subst hs
    refine ⟨fun hx => absurd hx (by simp), fun _ => ⟨rfl, fun i hi => ?_⟩,
      fun data hx => absurd hx (by simp)⟩
    simp only [AddrSpace.map_alloc]
    rw [if_pos ⟨Nat.le_add_right _ _, by omega⟩]
  | bytes data0 =>
    injection h with hs
    subst hs
    refine ⟨fun hx => ?_, fun hx => absurd hx (by simp), fun data hx => ?_⟩
    · rcases hx with hx | hx <;> exact absurd hx (by simp)
    · have hdd : data = data0 := (PflashRead.bytes.inj hx).symm
      subst hdd
      by_cases hd : 0 < data.length
      · rw [if_pos hd]
        refine ⟨fun i hi _ => ?_, fun i hi hi2 => ?_⟩
        · simp only [AddrSpace.write, AddrSpace.map_alloc]
          rw [if_pos ⟨Nat.le_add_right _ _, by omega⟩, Nat.add_sub_cancel_left]
        · simp only [AddrSpace.write, AddrSpace.map_alloc]
          rw [if_neg (by omega)]
          rw [if_pos ⟨Nat.le_add_right _ _, by omega⟩]
      · rw [if_neg hd]
        refine ⟨fun i hi _ => absurd hi (by omega), fun i hi hi2 => ?_⟩
        simp only [AddrSpace.map_alloc]
        rw [if_pos ⟨Nat.le_add_right _ _, by omega⟩]

/-- Concrete run-loop state for the C5 witness. -/
def c5State : H2State := ⟨⟨[], [], fun _ => 0⟩, 0⟩

/-- Outcome state of the open-failure dispatch on `c5State`, for the C5
witness. -/
def c5Out : H2State :=
  { c5State with
    aspace := (c5State.aspace.map_alloc PFLASH_ADDR 4096 0xf).write
      PFLASH_ADDR pfldBytes }

/-- Witness for the amended C5: on open failure the first placeholder byte
lands at the device-region base. -/
theorem pflash_page_content_witness :
    c5Out.aspace.mem (PFLASH_ADDR + 0) = pfldBytes.getD 0 0 :=
  (pflash_page_content c5State PflashRead.openErr 0xf c5Out rfl).1
    (Or.inl rfl) 0 (by decide)

/-- Counterexample to C6 as stated: two demand-mapping run-loop states that
differ only in the guest program counter produce the *identical* fatal
diagnostic on an unhandled exit, so that diagnostic cannot name the guest
program counter. -/
theorem unhandled_exit_pc_counterexample :
    handle_exit (AxVCpuExitReason.other 0) PflashRead.openErr
        ⟨⟨[], [], fun _ => 0⟩, 0⟩ =
      Except.error (H2Diag.unhandledVmExit (AxVCpuExitReason.other 0)) ∧
    handle_exit (AxVCpuExitReason.other 0) PflashRead.openErr
        ⟨⟨[], [], fun _ => 0⟩, 7⟩ =
      Except.error (H2Diag.unhandledVmExit (AxVCpuExitReason.other 0)) ∧
    (0 : Nat) ≠ 7 :=
  ⟨rfl, rfl, by decide⟩

/-- C6 as amended: every trap cause outside the modeled set is fatal and
never resumed — the static-backing dispatcher's diagnostic names the cause,
the guest program counter and the trap value, while the demand-mapping
dispatcher's diagnostic names only the exit reason (not the guest program
counter). -/
theorem unhandled_trap_fatal (ctx : VmCpuRegisters) (code stv : Nat)
    (s : H2State) (pf : PflashRead) (tag : Nat) :
    vmexit_handler (Trap.other code) stv ctx =
      Except.error (Diag.unhandledTrap (Trap.other code) ctx.sepc stv) ∧
    handle_exit (AxVCpuExitReason.other tag) pf s =
      Except.error (H2Diag.unhandledVmExit (AxVCpuExitReason.other tag)) :=
  ⟨rfl, rfl⟩
